import Mathlib

/-!
Verification of the Hisen Desk diagnostic utility (Tauri + React desktop app).

The data model and the presentation shell are embedded from `src/App.tsx`.
The Rust backend (`src-tauri/src/main.rs`) is not part of the source
snapshot, so the four backend commands (`get_system_info`,
`list_audio_devices`, `list_cameras`, `run_network_test`) are modelled from
the specification: each is a pure function of an explicit environment that
records the outcome of every platform/network interaction it performs.
Floating-point quantities (latency in ms, throughput in Mbps) are modelled
as rationals; machine integers as Nat.
-/

namespace HisenDesk

/-! ## Data model (the record types of `src/App.tsx`, lines 9-39) -/

/-- `NetworkIface` of App.tsx: per-interface cumulative byte counters. -/
structure NetworkIface where
  name : String
  received : Nat
  transmitted : Nat
deriving DecidableEq

/-- `SystemInfo` of App.tsx: nullable fields are `Option`, `cpu_brand` is a
plain string, memory/swap/uptime are plain unsigned integers. -/
structure SystemInfo where
  os_name : Option String
  hostname : Option String
  kernel_version : Option String
  os_version : Option String
  cpu_brand : String
  cpu_physical_cores : Option Nat
  total_memory : Nat
  used_memory : Nat
  total_swap : Nat
  used_swap : Nat
  uptime : Nat
  network_ifaces : List NetworkIface
deriving DecidableEq

/-- `AudioDevices` of App.tsx. -/
structure AudioDevices where
  inputs : List String
  outputs : List String
  default_input : Option String
  default_output : Option String
deriving DecidableEq

/-- `NetTestResult` of App.tsx: every field optional. -/
structure NetTestResult where
  external_ip : Option String := none
  http_latency_ms : Option ℚ := none
  download_mbps : Option ℚ := none
  upload_mbps : Option ℚ := none
  error : Option String := none
deriving DecidableEq

/-- `true` exactly when an `Except` value is a success. -/
def exOk {ε α : Type} : Except ε α → Bool
  | .ok _ => true
  | .error _ => false

/-! ## Backend: network prober (modelled from the spec) -/

/-- Modelled from the spec: the outcome environment of one invocation of
`run_network_test` (its code, `src-tauri/src/main.rs`, is not in the source
snapshot).  The three sub-measurements are independent; each either fails
with a reason or succeeds with its raw data — the IP lookup with a response
body, the latency probe with a round-trip time in milliseconds, the
download probe with a byte count and an elapsed time in seconds. -/
structure NetEnv where
  ipResult : Except String String
  latencyResult : Except String ℚ
  downloadResult : Except String (Nat × ℚ)

/-- The failure reasons of exactly the failing sub-measurements, in
measurement order. -/
def subErrors (env : NetEnv) : List String :=
  (match env.ipResult with
    | .ok _ => []
    | .error e => [e]) ++
  (match env.latencyResult with
    | .ok _ => []
    | .error e => [e]) ++
  (match env.downloadResult with
    | .ok _ => []
    | .error e => [e])

/-- Modelled from the spec: `run_network_test` performs three independent
sub-measurements in sequence; a failure in one does not abort the others.
On success the IP lookup's trimmed body becomes `external_ip`, the latency
becomes `http_latency_ms`, and the download yields
`download_mbps = bytes * 8 / (seconds * 1000000)`; a failing sub-measurement
leaves its field `none` and contributes its reason to `error`, which is the
concatenation of the failing reasons, or `none` when all three succeeded.
`upload_mbps` is reserved and never populated.  The function is total:
every invocation returns a `NetTestResult`, never an exception. -/
def run_network_test (env : NetEnv) : NetTestResult where
  external_ip :=
    match env.ipResult with
    | .ok body => some body.trim
    | .error _ => none
  http_latency_ms :=
    match env.latencyResult with
    | .ok ms => some ms
    | .error _ => none
  download_mbps :=
    match env.downloadResult with
    | .ok bt => some ((bt.1 : ℚ) * 8 / (bt.2 * 1000000))
    | .error _ => none
  upload_mbps := none
  error :=
    match subErrors env with
    | [] => none
    | es => some (String.intercalate "; " es)

/-! ## Backend: system-info query (modelled from the spec) -/

/-- Modelled from the spec: the raw host readings available to
`get_system_info` (its code is not in the source snapshot).  Every value
the host platform may fail to expose is an `Option`; the measured
memory/swap/uptime counters are plain naturals. -/
structure HostEnv where
  os_name : Option String
  hostname : Option String
  kernel_version : Option String
  os_version : Option String
  cpu_brand : Option String
  cpu_physical_cores : Option Nat
  total_memory : Nat
  used_memory : Nat
  total_swap : Nat
  used_swap : Nat
  uptime : Nat
  network_ifaces : List NetworkIface

/-- Modelled from the spec: `get_system_info` always succeeds as a query —
a value the host cannot determine becomes `none` rather than a failure, the
CPU brand falls back to the empty string, and the integer counters are
reported as measured. -/
def get_system_info (h : HostEnv) : SystemInfo where
  os_name := h.os_name
  hostname := h.hostname
  kernel_version := h.kernel_version
  os_version := h.os_version
  cpu_brand := h.cpu_brand.getD ""
  cpu_physical_cores := h.cpu_physical_cores
  total_memory := h.total_memory
  used_memory := h.used_memory
  total_swap := h.total_swap
  used_swap := h.used_swap
  uptime := h.uptime
  network_ifaces := h.network_ifaces

/-! ## Presentation shell (embedded from `App` in `src/App.tsx`) -/

/-- The four backend commands the shell can invoke through `invokeCmd`. -/
inductive Cmd where
  | getSystemInfo
  | listAudioDevices
  | listCameras
  | runNetworkTest
deriving DecidableEq

/-- The shell's React state (`useState` hooks of `App`, lines 42-46). -/
structure ShellState where
  sys : Option SystemInfo
  audio : Option AudioDevices
  cameras : List String
  testing : Bool
  net : Option NetTestResult
deriving DecidableEq

/-- The initial state of `App`: `sys`, `audio`, `net` start `null`,
`cameras` starts as the empty list, `testing` as `false`. -/
def initState : ShellState where
  sys := none
  audio := none
  cameras := []
  testing := false
  net := none

/-- The outcomes the three awaited invocations of `refresh` would have if
reached: a resolved value or a thrown/rejected error. -/
structure RefreshEnv where
  sysR : Except String SystemInfo
  audioR : Except String AudioDevices
  camerasR : Except String (List String)

/-- What one call of `refresh` produces: the updated shell state, the
backend commands actually invoked (in order), and whether the `catch`
branch ran `console.error`. -/
structure RefreshOutcome where
  state : ShellState
  calls : List Cmd
  loggedError : Bool
deriving DecidableEq

/-- `refresh` of App.tsx (lines 48-59): awaits `get_system_info`,
`list_audio_devices`, `list_cameras` sequentially inside one `try` block,
storing each result as it arrives; the first thrown error skips the
remaining awaits and is only logged to the console. -/
def refresh (st : ShellState) (env : RefreshEnv) : RefreshOutcome :=
  match env.sysR with
  | .error _ => ⟨st, [Cmd.getSystemInfo], true⟩
  | .ok s =>
    match env.audioR with
    | .error _ => ⟨{ st with sys := some s }, [Cmd.getSystemInfo, Cmd.listAudioDevices], true⟩
    | .ok a =>
      match env.camerasR with
      | .error _ =>
        ⟨{ st with sys := some s, audio := some a },
          [Cmd.getSystemInfo, Cmd.listAudioDevices, Cmd.listCameras], true⟩
      | .ok cams =>
        ⟨{ st with sys := some s, audio := some a, cameras := cams },
          [Cmd.getSystemInfo, Cmd.listAudioDevices, Cmd.listCameras], false⟩

/-- The synchronous prefix of `runTest` (lines 62-63):
`setTesting(true); setNet(null)`. -/
def startTest (st : ShellState) : ShellState :=
  { st with testing := true, net := none }

/-- The completion of `runTest` (lines 64-71): on a resolved invocation the
result is stored in `net`; on a thrown error `net` becomes a record whose
only populated field is `error`; the `finally` block resets `testing`. -/
def finishTest (st : ShellState) (o : Except String NetTestResult) : ShellState :=
  match o with
  | .ok r => { st with net := some r, testing := false }
  | .error e => { st with net := some { error := some e }, testing := false }

/-- One whole run of the `runTest` handler (lines 61-72), from click to
completion, given the outcome of the `run_network_test` invocation. -/
def runTest (st : ShellState) (o : Except String NetTestResult) : ShellState :=
  finishTest (startTest st) o

/-- The actions a user (or React's mount effect) can trigger: the mount
effect calls `refresh` (lines 74-76), the first button calls `refresh`,
the second button calls `runTest` (lines 82-83). -/
inductive UserAction where
  | startup
  | clickRefresh
  | clickRunTest
deriving DecidableEq

/-- The backend commands one user action causes the shell to invoke. -/
def actionCalls (st : ShellState) (env : RefreshEnv) : UserAction → List Cmd
  | .startup => (refresh st env).calls
  | .clickRefresh => (refresh st env).calls
  | .clickRunTest => [Cmd.runNetworkTest]

/-! ## Rendered views of the audio and camera sections -/

/-- What the audio section renders (lines 105-125): a loading placeholder
while `audio` is `null`, otherwise the device lists. -/
inductive AudioView where
  | loading
  | devices (a : AudioDevices)
deriving DecidableEq

/-- The audio section's render as a function of the `audio` state. -/
def audioSection (audio : Option AudioDevices) : AudioView :=
  match audio with
  | none => AudioView.loading
  | some a => AudioView.devices a

/-- What the camera section renders (lines 128-132): the "no cameras
detected" message when `cameras.length` is zero, otherwise the list. -/
inductive CameraView where
  | noCamerasMsg
  | cameraList (cs : List String)
deriving DecidableEq

/-- The camera section's render as a function of the `cameras` state. -/
def cameraSection (cs : List String) : CameraView :=
  match cs with
  | [] => CameraView.noCamerasMsg
  | _ => CameraView.cameraList cs

/-! ## App-level transition system (for the in-flight discipline) -/

/-- The shell state together with the number of network tests currently in
flight (started by a click, not yet completed). -/
structure AppState where
  shell : ShellState
  inFlight : Nat

/-- The atomic steps of the running app: clicking the run-test button is
possible only while it is enabled (`disabled={testing}`, line 83); a test
in flight completes with some outcome; a refresh resolves with some
environment. -/
inductive Step : AppState → AppState → Prop where
  | clickRunTest (s : AppState) (h : s.shell.testing = false) :
      Step s ⟨startTest s.shell, s.inFlight + 1⟩
  | completeTest (s : AppState) (o : Except String NetTestResult)
      (h : 0 < s.inFlight) :
      Step s ⟨finishTest s.shell o, s.inFlight - 1⟩
  | doRefresh (s : AppState) (env : RefreshEnv) :
      Step s ⟨(refresh s.shell env).state, s.inFlight⟩

/-- The app states reachable from the freshly mounted shell. -/
inductive Reachable : AppState → Prop where
  | init : Reachable ⟨initState, 0⟩
  | step {s t : AppState} : Reachable s → Step s t → Reachable t

/-! ## Concrete inputs used by witnesses and counterexamples -/

/-- A network environment in which only the latency probe fails. -/
def envC1 : NetEnv where
  ipResult := Except.ok " 1.2.3.4 "
  latencyResult := Except.error "timeout"
  downloadResult := Except.ok (3000000, 2)

/-- A network environment whose download probe returns exactly 3,000,000
bytes in 2 seconds. -/
def envC6 : NetEnv where
  ipResult := Except.ok "1.2.3.4"
  latencyResult := Except.ok 35
  downloadResult := Except.ok (3000000, 2)

/-- A concrete system-info record. -/
def sysA : SystemInfo where
  os_name := some "macOS"
  hostname := some "host"
  kernel_version := none
  os_version := none
  cpu_brand := "Apple M1"
  cpu_physical_cores := some 8
  total_memory := 16000000
  used_memory := 8000000
  total_swap := 0
  used_swap := 0
  uptime := 3600
  network_ifaces := []

/-- A concrete audio-device record. -/
def audioA : AudioDevices where
  inputs := ["Built-in Microphone"]
  outputs := ["Built-in Output"]
  default_input := some "Built-in Microphone"
  default_output := some "Built-in Output"

/-- A refresh in which all three queries succeed. -/
def envC3ok : RefreshEnv where
  sysR := Except.ok sysA
  audioR := Except.ok audioA
  camerasR := Except.ok ["FaceTime HD Camera"]

/-- A refresh in which the audio enumeration fails. -/
def envC3audioFail : RefreshEnv where
  sysR := Except.ok sysA
  audioR := Except.error "audio enumeration failed"
  camerasR := Except.ok []

/-- A refresh in which only the camera enumeration fails. -/
def envC3camFail : RefreshEnv where
  sysR := Except.ok sysA
  audioR := Except.ok audioA
  camerasR := Except.error "camera enumeration failed"

/-- A refresh in which the audio enumeration fails, for the skip clause. -/
def envC4audioFail : RefreshEnv where
  sysR := Except.ok sysA
  audioR := Except.error "audio enumeration failed"
  camerasR := Except.ok []

/-- A refresh in which the very first awaited query throws. -/
def envC4sysFail : RefreshEnv where
  sysR := Except.error "ipc failure"
  audioR := Except.ok audioA
  camerasR := Except.ok []

/-- A refresh in which all three queries succeed. -/
def envC4ok : RefreshEnv where
  sysR := Except.ok sysA
  audioR := Except.ok audioA
  camerasR := Except.ok []

/-- A refresh in which the system-info query throws. -/
def envC9sysFail : RefreshEnv where
  sysR := Except.error "ipc failure"
  audioR := Except.ok audioA
  camerasR := Except.ok []

/-- A refresh in which the camera enumeration fails. -/
def envC10camFail : RefreshEnv where
  sysR := Except.ok sysA
  audioR := Except.ok audioA
  camerasR := Except.error "camera enumeration failed"

/-- A host on which the CPU brand cannot be determined. -/
def hostA : HostEnv where
  os_name := none
  hostname := some "host"
  kernel_version := none
  os_version := none
  cpu_brand := none
  cpu_physical_cores := none
  total_memory := 16000000
  used_memory := 8000000
  total_swap := 0
  used_swap := 0
  uptime := 3600
  network_ifaces := [⟨"en0", 1000, 2000⟩]

/-! ## Theorems -/

/-- C1: for every invocation of `run_network_test`, the result's `error`
field is `none` iff all three sub-measurements succeeded; otherwise it is
the concatenation (separated by "; ") of exactly the failing
sub-measurements' reasons, while every successful sub-measurement still
populates its own field. -/
theorem run_network_test_error_aggregation (env : NetEnv) :
    ((run_network_test env).error = none ↔
      (exOk env.ipResult = true ∧ exOk env.latencyResult = true ∧
        exOk env.downloadResult = true)) ∧
    (run_network_test env).error =
      (if subErrors env = [] then none
        else some (String.intercalate "; " (subErrors env))) ∧
    (∀ body, env.ipResult = Except.ok body →
      (run_network_test env).external_ip = some body.trim) ∧
    (∀ e, env.ipResult = Except.error e →
      (run_network_test env).external_ip = none ∧ e ∈ subErrors env) ∧
    (∀ ms, env.latencyResult = Except.ok ms →
      (run_network_test env).http_latency_ms = some ms) ∧
    (∀ e, env.latencyResult = Except.error e →
      (run_network_test env).http_latency_ms = none ∧ e ∈ subErrors env) ∧
    (∀ b t, env.downloadResult = Except.ok (b, t) →
      (run_network_test env).download_mbps = some ((b : ℚ) * 8 / (t * 1000000))) ∧
    (∀ e, env.downloadResult = Except.error e →
      (run_network_test env).download_mbps = none ∧ e ∈ subErrors env) := by
  obtain ⟨ip, lat, dl⟩ := env
  cases ip <;> cases lat <;> cases dl <;>
    simp [run_network_test, subErrors, exOk] <;>
    try (rintro b t rfl; rfl)

/-- Closed instance of C1 at `envC1`: the latency probe failed, so `error`
carries exactly its reason while the IP and download fields are still
populated. -/
theorem run_network_test_error_aggregation_witness :
    (run_network_test envC1).external_ip = some " 1.2.3.4 ".trim ∧
    (run_network_test envC1).download_mbps = some ((3000000 : ℚ) * 8 / (2 * 1000000)) ∧
    (run_network_test envC1).error =
      (if subErrors envC1 = [] then none
        else some (String.intercalate "; " (subErrors envC1))) :=
  ⟨(run_network_test_error_aggregation envC1).2.2.1 " 1.2.3.4 " rfl,
   (run_network_test_error_aggregation envC1).2.2.2.2.2.2.1 3000000 2 rfl,
   (run_network_test_error_aggregation envC1).2.1⟩

/-- C2: `run_network_test` never throws — it is a total function into
`NetTestResult` — and after every completion of the shell's `runTest`
handler the `net` state is a non-null `NetTestResult` with `testing`
reset; when the invocation resolves with the prober's record, that record
is what is displayed. -/
theorem runTest_never_throws :
    (∀ (st : ShellState) (o : Except String NetTestResult),
      ((runTest st o).net).isSome = true ∧ (runTest st o).testing = false) ∧
    (∀ (st : ShellState) (env : NetEnv),
      (runTest st (Except.ok (run_network_test env))).net
        = some (run_network_test env)) := by
  constructor
  · intro st o
    cases o <;> simp [runTest, startTest, finishTest]
  · intro st env
    simp [runTest, startTest, finishTest]

/-- C6: on a successful download sub-measurement of `b` bytes over `t`
seconds, `download_mbps = b * 8 / (t * 1000000)`; for exactly 3,000,000
bytes the value is `3000000 * 8 / (t * 1000000)`. -/
theorem download_mbps_formula (env : NetEnv) (bytes : Nat) (t : ℚ)
    (h : env.downloadResult = Except.ok (bytes, t)) :
    (run_network_test env).download_mbps = some ((bytes : ℚ) * 8 / (t * 1000000)) ∧
    (bytes = 3000000 →
      (run_network_test env).download_mbps
        = some ((3000000 : ℚ) * 8 / (t * 1000000))) := by
  constructor
  · simp [run_network_test, h]
  · rintro rfl
    simp [run_network_test, h]

/-- Closed instance of C6 at `envC6`: 3,000,000 bytes over 2 seconds give
`3000000 * 8 / (2 * 1000000)` Mbps, i.e. 12 Mbps. -/
theorem download_mbps_formula_witness :
    (run_network_test envC6).download_mbps
      = some ((3000000 : ℚ) * 8 / (2 * 1000000)) ∧
    ((3000000 : ℚ) * 8 / (2 * 1000000)) = 12 :=
  ⟨(download_mbps_formula envC6 3000000 2 rfl).2 rfl, by norm_num⟩

/-- C7: the `upload_mbps` field of every `run_network_test` result is
`none` — it is reserved and never populated. -/
theorem upload_mbps_always_none (env : NetEnv) :
    (run_network_test env).upload_mbps = none := rfl

/-- C8: `get_system_info` always succeeds as a query — it is a total
function into `SystemInfo`; every optional field passes through as the
host reported it (`none` when undeterminable), `cpu_brand` is always a
present string falling back to `""`, and the memory, swap and uptime
counters are always present naturals reported as measured. -/
theorem get_system_info_total_fields (h : HostEnv) :
    (get_system_info h).cpu_brand = h.cpu_brand.getD "" ∧
    (h.cpu_brand = none → (get_system_info h).cpu_brand = "") ∧
    (get_system_info h).os_name = h.os_name ∧
    (get_system_info h).hostname = h.hostname ∧
    (get_system_info h).kernel_version = h.kernel_version ∧
    (get_system_info h).os_version = h.os_version ∧
    (get_system_info h).cpu_physical_cores = h.cpu_physical_cores ∧
    (get_system_info h).total_memory = h.total_memory ∧
    (get_system_info h).used_memory = h.used_memory ∧
    (get_system_info h).total_swap = h.total_swap ∧
    (get_system_info h).used_swap = h.used_swap ∧
    (get_system_info h).uptime = h.uptime ∧
    (get_system_info h).network_ifaces = h.network_ifaces := by
  refine ⟨rfl, ?_, rfl, rfl, rfl, rfl, rfl, rfl, rfl, rfl, rfl, rfl, rfl⟩
  intro hc
  simp [get_system_info, hc]

/-- Closed instance of C8 at `hostA`, a host whose CPU brand is
undeterminable: the query still returns a record, with `cpu_brand = ""`. -/
theorem get_system_info_total_fields_witness :
    (get_system_info hostA).cpu_brand = "" ∧
    (get_system_info hostA).os_name = hostA.os_name :=
  ⟨(get_system_info_total_fields hostA).2.1 rfl,
   (get_system_info_total_fields hostA).2.2.1⟩

/-- Counterexample to C3: after a successful refresh, a second refresh
whose audio enumeration fails leaves the stale audio record in state and
the audio section keeps rendering it — the shell does not "show nothing"
for the failed section. -/
theorem refresh_stale_audio_displayed :
    ((refresh (refresh initState envC3ok).state envC3audioFail).state).audio
      = some audioA ∧
    audioSection ((refresh (refresh initState envC3ok).state envC3audioFail).state).audio
      = AudioView.devices audioA ∧
    (refresh (refresh initState envC3ok).state envC3audioFail).loggedError = true :=
  ⟨rfl, rfl, rfl⟩

/-- C3 (amended): when a device-enumeration call — `list_audio_devices` or
`list_cameras` — fails, the rejection is caught in `refresh` as a single
error and only logged; the state of the failed section, and of every
section after it, keeps its previous value, so the shell keeps displaying
whatever it displayed before for that section (the loading placeholder
only if nothing had loaded yet), and queries after the failing one are not
invoked. -/
theorem refresh_failure_keeps_previous_sections (st : ShellState) (env : RefreshEnv) :
    (∀ e, env.audioR = Except.error e →
      ((refresh st env).state).audio = st.audio ∧
      ((refresh st env).state).cameras = st.cameras ∧
      (refresh st env).loggedError = true ∧
      audioSection ((refresh st env).state).audio = audioSection st.audio ∧
      (refresh st env).calls.count Cmd.listCameras = 0) ∧
    (∀ e, env.camerasR = Except.error e →
      ((refresh st env).state).cameras = st.cameras ∧
      (refresh st env).loggedError = true ∧
      cameraSection ((refresh st env).state).cameras = cameraSection st.cameras) := by
  constructor
  · intro e h
    cases hs : env.sysR <;> simp [refresh, hs, h]
  · intro e h
    cases hs : env.sysR <;> cases ha : env.audioR <;> simp [refresh, hs, ha, h]

/-- Closed instances of the amended C3: a failed audio enumeration from
the initial state keeps `audio` at its previous value, and a failed camera
enumeration keeps `cameras` — and its render — at their previous values. -/
theorem refresh_failure_keeps_previous_sections_witness :
    ((refresh initState envC3audioFail).state).audio = initState.audio ∧
    (refresh initState envC3audioFail).calls.count Cmd.listCameras = 0 ∧
    ((refresh initState envC3camFail).state).cameras = initState.cameras ∧
    cameraSection ((refresh initState envC3camFail).state).cameras
      = cameraSection initState.cameras :=
  ⟨((refresh_failure_keeps_previous_sections initState envC3audioFail).1
      "audio enumeration failed" rfl).1,
   ((refresh_failure_keeps_previous_sections initState envC3audioFail).1
      "audio enumeration failed" rfl).2.2.2.2,
   ((refresh_failure_keeps_previous_sections initState envC3camFail).2
      "camera enumeration failed" rfl).1,
   ((refresh_failure_keeps_previous_sections initState envC3camFail).2
      "camera enumeration failed" rfl).2.2⟩

/-- Counterexample to C4: in a refresh whose first awaited query throws,
`list_audio_devices` and `list_cameras` are invoked zero times, not once. -/
theorem refresh_skips_later_calls :
    (refresh initState envC4sysFail).calls = [Cmd.getSystemInfo] ∧
    (refresh initState envC4sysFail).calls.count Cmd.listAudioDevices = 0 ∧
    (refresh initState envC4sysFail).calls.count Cmd.listCameras = 0 :=
  ⟨rfl, by decide, by decide⟩

/-- C4 (amended): in a startup or refresh in which all three queries
succeed, each of `get_system_info`, `list_audio_devices`, `list_cameras`
is invoked exactly once; whenever a query throws, every query after it is
invoked zero times in that invocation; `run_network_test` is never invoked
by any refresh and is invoked exactly by the explicit run-test action. -/
theorem shell_call_discipline (st : ShellState) (env : RefreshEnv) :
    (exOk env.sysR = true → exOk env.audioR = true → exOk env.camerasR = true →
      (refresh st env).calls
        = [Cmd.getSystemInfo, Cmd.listAudioDevices, Cmd.listCameras] ∧
      (refresh st env).calls.count Cmd.getSystemInfo = 1 ∧
      (refresh st env).calls.count Cmd.listAudioDevices = 1 ∧
      (refresh st env).calls.count Cmd.listCameras = 1) ∧
    (∀ e, env.sysR = Except.error e →
      (refresh st env).calls.count Cmd.listAudioDevices = 0 ∧
      (refresh st env).calls.count Cmd.listCameras = 0) ∧
    (∀ e, env.audioR = Except.error e →
      (refresh st env).calls.count Cmd.listCameras = 0) ∧
    (∀ env2 : RefreshEnv, (refresh st env2).calls.count Cmd.runNetworkTest = 0) ∧
    actionCalls st env UserAction.startup = (refresh st env).calls ∧
    actionCalls st env UserAction.clickRefresh = (refresh st env).calls ∧
    actionCalls st env UserAction.clickRunTest = [Cmd.runNetworkTest] := by
  refine ⟨?_, ?_, ?_, ?_, rfl, rfl, rfl⟩
  · intro hs ha hc
    cases hsy : env.sysR <;> rw [hsy] at hs <;> try simp [exOk] at hs
    cases hay : env.audioR <;> rw [hay] at ha <;> try simp [exOk] at ha
    cases hcy : env.camerasR <;> rw [hcy] at hc <;> try simp [exOk] at hc
    simp [refresh, hsy, hay, hcy]
  · intro e he
    simp [refresh, he]
  · intro e he
    cases hs : env.sysR <;> simp [refresh, hs, he]
  · intro env2
    cases h2s : env2.sysR <;> cases h2a : env2.audioR <;> cases h2c : env2.camerasR <;>
      simp [refresh, h2s, h2a, h2c]

/-- Closed instances of the amended C4: the all-success call list from the
initial state, the skipped calls after a first-query throw and after an
audio-query throw, and the run-test action's single call. -/
theorem shell_call_discipline_witness :
    (refresh initState envC4ok).calls
      = [Cmd.getSystemInfo, Cmd.listAudioDevices, Cmd.listCameras] ∧
    (refresh initState envC4sysFail).calls.count Cmd.listAudioDevices = 0 ∧
    (refresh initState envC4sysFail).calls.count Cmd.listCameras = 0 ∧
    (refresh initState envC4audioFail).calls.count Cmd.listCameras = 0 ∧
    actionCalls initState envC4ok UserAction.clickRunTest = [Cmd.runNetworkTest] :=
  ⟨((shell_call_discipline initState envC4ok).1 rfl rfl rfl).1,
   ((shell_call_discipline initState envC4sysFail).2.1 "ipc failure" rfl).1,
   ((shell_call_discipline initState envC4sysFail).2.1 "ipc failure" rfl).2,
   (shell_call_discipline initState envC4audioFail).2.2.1
     "audio enumeration failed" rfl,
   (shell_call_discipline initState envC4ok).2.2.2.2.2.2⟩

/-- `refresh` never touches the `testing` flag. -/
lemma refresh_preserves_testing (st : ShellState) (env : RefreshEnv) :
    ((refresh st env).state).testing = st.testing := by
  cases hs : env.sysR <;> cases ha : env.audioR <;> cases hc : env.camerasR <;>
    simp [refresh, hs, ha, hc]

/-- `refresh` never touches the `net` state. -/
lemma refresh_preserves_net (st : ShellState) (env : RefreshEnv) :
    ((refresh st env).state).net = st.net := by
  cases hs : env.sysR <;> cases ha : env.audioR <;> cases hc : env.camerasR <;>
    simp [refresh, hs, ha, hc]

/-- One app step preserves the tie between `inFlight` and `testing`. -/
lemma step_inFlight_testing {s t : AppState} (hstep : Step s t)
    (ih : s.inFlight = if s.shell.testing then 1 else 0) :
    t.inFlight = (if t.shell.testing then 1 else 0) := by
  cases hstep with
  | clickRunTest hu =>
    rw [hu] at ih
    simp [startTest, ih]
  | completeTest o hu =>
    cases hb : s.shell.testing <;> rw [hb] at ih <;> simp at ih <;>
      cases o <;> simp [finishTest] <;> omega
  | doRefresh env =>
    simpa [refresh_preserves_testing] using ih

/-- In every reachable app state the number of network tests in flight is
1 while `testing` is set and 0 while it is not. -/
lemma reachable_inFlight_testing (s : AppState) (hr : Reachable s) :
    s.inFlight = (if s.shell.testing then 1 else 0) := by
  induction hr with
  | init => rfl
  | step hprev hstep ih => exact step_inFlight_testing hstep ih

/-- C5: clicking the run-test control is possible only while `testing` is
false (the button is disabled in flight), the `finally` block resets
`testing` whether the invocation resolves or throws, and hence in every
reachable app state at most one network test is in flight. -/
theorem network_test_mutual_exclusion :
    (∀ s : AppState, Reachable s → s.inFlight ≤ 1) ∧
    (∀ (st : ShellState) (o : Except String NetTestResult),
      (finishTest st o).testing = false) ∧
    (∀ st : ShellState, (startTest st).testing = true) ∧
    (∀ s t : AppState, Step s t → s.inFlight < t.inFlight →
      s.shell.testing = false) := by
  refine ⟨?_, ?_, ?_, ?_⟩
  · intro s hr
    rw [reachable_inFlight_testing s hr]
    cases s.shell.testing <;> simp
  · intro st o
    cases o <;> simp [finishTest]
  · intro st
    simp [startTest]
  · intro s t hstep hlt
    cases hstep with
    | clickRunTest hu => exact hu
    | completeTest o hu => exact absurd hlt (by dsimp; omega)
    | doRefresh env => exact absurd hlt (by dsimp; omega)

/-- Closed instance of C5 at the initial app state. -/
theorem network_test_mutual_exclusion_witness :
    (AppState.mk initState 0).inFlight ≤ 1 :=
  network_test_mutual_exclusion.1 (AppState.mk initState 0) Reachable.init

/-- C9: the three queries of `refresh` are awaited sequentially inside one
try block: whichever throws first stops the sequence, every state variable
not yet assigned in that invocation keeps its previous value, the error is
only logged, and `net` and `testing` — in particular, any user-visible
error state, of which `ShellState` has none — are untouched. -/
theorem refresh_sequential_semantics (st : ShellState) (env : RefreshEnv) :
    (∀ e, env.sysR = Except.error e →
      (refresh st env).state = st ∧
      (refresh st env).calls = [Cmd.getSystemInfo] ∧
      (refresh st env).loggedError = true) ∧
    (∀ s e, env.sysR = Except.ok s → env.audioR = Except.error e →
      (refresh st env).state = { st with sys := some s } ∧
      (refresh st env).calls = [Cmd.getSystemInfo, Cmd.listAudioDevices] ∧
      (refresh st env).loggedError = true) ∧
    (∀ s a e, env.sysR = Except.ok s → env.audioR = Except.ok a →
        env.camerasR = Except.error e →
      (refresh st env).state = { st with sys := some s, audio := some a } ∧
      (refresh st env).loggedError = true) ∧
    (∀ s a cams, env.sysR = Except.ok s → env.audioR = Except.ok a →
        env.camerasR = Except.ok cams →
      (refresh st env).state
        = { st with sys := some s, audio := some a, cameras := cams } ∧
      (refresh st env).loggedError = false) ∧
    ((refresh st env).state.net = st.net ∧
      (refresh st env).state.testing = st.testing) := by
  refine ⟨?_, ?_, ?_, ?_, refresh_preserves_net st env, refresh_preserves_testing st env⟩
  · intro e he
    simp [refresh, he]
  · intro s e hs he
    simp [refresh, hs, he]
  · intro s a e hs ha he
    simp [refresh, hs, ha, he]
  · intro s a cams hs ha hc
    simp [refresh, hs, ha, hc]

/-- Closed instance of C9 at `envC9sysFail` from the initial state: the
first query throws, nothing is invoked after it, the state is unchanged
and the error is only logged. -/
theorem refresh_sequential_semantics_witness :
    (refresh initState envC9sysFail).state = initState ∧
    (refresh initState envC9sysFail).calls = [Cmd.getSystemInfo] ∧
    (refresh initState envC9sysFail).loggedError = true :=
  (refresh_sequential_semantics initState envC9sysFail).1 "ipc failure" rfl

/-- C10: `cameras` is initialised to the empty list, the camera section
renders the "no cameras detected" message exactly when that list is empty,
and the render cannot distinguish a not-yet-completed or failed enumeration
(which leaves `cameras` at its previous value) from a successful
enumeration that found zero cameras. -/
theorem cameras_empty_indistinguishable :
    initState.cameras = [] ∧
    (∀ cs : List String, cameraSection cs = CameraView.noCamerasMsg ↔ cs = []) ∧
    cameraSection initState.cameras = CameraView.noCamerasMsg ∧
    (∀ (st : ShellState) (env : RefreshEnv) (e : String),
      env.camerasR = Except.error e →
      cameraSection ((refresh st env).state).cameras = cameraSection st.cameras) ∧
    (∀ (st : ShellState) (env : RefreshEnv),
      exOk env.sysR = true → exOk env.audioR = true →
      env.camerasR = Except.ok [] →
      cameraSection ((refresh st env).state).cameras = CameraView.noCamerasMsg) := by
  refine ⟨rfl, ?_, rfl, ?_, ?_⟩
  · intro cs
    cases cs <;> simp [cameraSection]
  · intro st env e he
    cases hs : env.sysR <;> cases ha : env.audioR <;>
      simp [refresh, hs, ha, he]
  · intro st env hs ha hc
    cases hsy : env.sysR <;> rw [hsy] at hs <;> try simp [exOk] at hs
    cases hay : env.audioR <;> rw [hay] at ha <;> try simp [exOk] at ha
    simp [refresh, hsy, hay, hc, cameraSection]

/-- Closed instance of C10 at `envC10camFail` from the initial state: the
failed camera enumeration leaves the render identical to the initial one —
the "no cameras detected" message. -/
theorem cameras_empty_indistinguishable_witness :
    cameraSection ((refresh initState envC10camFail).state).cameras
      = cameraSection initState.cameras ∧
    cameraSection initState.cameras = CameraView.noCamerasMsg :=
  ⟨cameras_empty_indistinguishable.2.2.2.1 initState envC10camFail
      "camera enumeration failed" rfl,
   cameras_empty_indistinguishable.2.2.1⟩

end HisenDesk
